import Mathlib

namespace WorkerWorkflow

/-- A JavaScript primitive value as it can appear in the `number` field of the
request body (a JSON value) or flow through the workflow's arithmetic.
`int` models a finite JS number (the program only does integer arithmetic);
`nan` is the JS number NaN; `undefined` models a missing property. -/
inductive JSVal where
  | int (n : Int)
  | nan
  | str (s : String)
  | bool (b : Bool)
  | null
  | undefined
deriving DecidableEq, Repr

/-- JS template-literal stringification of a primitive value. -/
def jsToString : JSVal → String
  | .int n => toString n
  | .nan => "NaN"
  | .str s => s
  | .bool b => cond b "true" "false"
  | .null => "null"
  | .undefined => "undefined"

/-- JS ToNumber coercion, restricted to the values above; numeric strings are
parsed as integers, non-numeric strings coerce to NaN. -/
def jsToNum : JSVal → JSVal
  | .int n => .int n
  | .nan => .nan
  | .str s => match s.toInt? with
    | some n => .int n
    | none => .nan
  | .bool b => .int (cond b 1 0)
  | .null => .int 0
  | .undefined => .nan

/-- JS `+`: string concatenation when either operand is a string, otherwise
numeric addition with NaN propagation. -/
def jsAdd (a b : JSVal) : JSVal :=
  match a, b with
  | .str _, _ => .str (jsToString a ++ jsToString b)
  | _, .str _ => .str (jsToString a ++ jsToString b)
  | _, _ =>
    match jsToNum a, jsToNum b with
    | .int x, .int y => .int (x + y)
    | _, _ => .nan

/-- JS `*`: numeric multiplication with coercion and NaN propagation. -/
def jsMul (a b : JSVal) : JSVal :=
  match jsToNum a, jsToNum b with
  | .int x, .int y => .int (x * y)
  | _, _ => .nan

/-- The JS test `typeof v === 'number'`. -/
def jsTypeofIsNumber : JSVal → Bool
  | .int _ => true
  | .nan => true
  | _ => false

/-- Global `isNaN(v)` (coercing). -/
def jsIsNaN (v : JSVal) : Bool :=
  match jsToNum v with
  | .nan => true
  | _ => false

/-- The final-result object built by the workflow's fifth step
(`step5-finalize` in the source). The `timestamp` field, a wall-clock read,
is omitted from the model. `steps` holds the recorded message values of the
earlier steps (JS property reads, hence `JSVal`). -/
structure FinalResult where
  success : Bool
  originalNumber : JSVal
  finalResult : JSVal
  formula : String
  steps : List JSVal
deriving DecidableEq, Repr

/-- The serialized output a step records in the ledger: step 1 returns
`{validated, value, message}`, steps 2–4 return `{value, message}`, and
step 5 returns the final-result object. -/
inductive StepOutput where
  | s1 (validated : Bool) (value : JSVal) (message : String)
  | mid (value : JSVal) (message : String)
  | final (res : FinalResult)
deriving DecidableEq, Repr

/-- JS property read `out.value`; reading it off the step-5 object, which has
no such property, yields `undefined`. -/
def StepOutput.value : StepOutput → JSVal
  | .s1 _ v _ => v
  | .mid v _ => v
  | .final _ => .undefined

/-- JS property read `out.message`; `undefined` on the step-5 object. -/
def StepOutput.message : StepOutput → JSVal
  | .s1 _ _ m => .str m
  | .mid _ m => .str m
  | .final _ => .undefined

/-- The error a failed step propagates out of the workflow run: it names the
step and wraps the underlying cause. -/
structure StepFailure where
  stepName : String
  cause : String
deriving DecidableEq, Repr

/-- Modelled from the spec: the Run Ledger's per-run step table (the durable
store behind `step.do`, which lives in the `cloudflare:workers` runtime and is
not part of this repository's sources). Records are keyed by step name;
only Succeeded records are kept, since the workflow's computations are
deterministic and a permanently failed step terminates the run. -/
structure Ledger where
  records : List (String × StepOutput)
deriving DecidableEq, Repr

/-- Modelled from the spec: `getStep(RunID, stepName)` for the current run —
look up the recorded output of a named step. -/
def Ledger.lookup (L : Ledger) (name : String) : Option StepOutput :=
  (L.records.find? (fun p => p.1 == name)).map Prod.snd

/-- Modelled from the spec: `recordStepSuccess` — durably record a step's
output; a record for an already-Succeeded step name is never overwritten. -/
def recordStepSuccess (L : Ledger) (name : String) (out : StepOutput) : Ledger :=
  match L.lookup name with
  | some _ => L
  | none => ⟨L.records ++ [(name, out)]⟩

/-- The observable execution state of one run: its ledger plus two traces,
`declared` (step names passed to `step.do`, in program order) and `invoked`
(step names whose compute closure actually ran, in order). -/
structure ExecTrace where
  ledger : Ledger
  declared : List String
  invoked : List String
deriving DecidableEq, Repr

/-- The state of a freshly created run: empty ledger, nothing declared or
invoked yet. -/
def emptyExec : ExecTrace := ⟨⟨[]⟩, [], []⟩

/-- Modelled from the spec: the Step Context operation `step.do(name,
compute)` of the `cloudflare:workers` runtime (absent from this repository's
sources). If the ledger already holds a Succeeded record for `name`, its
output is returned and `compute` is never invoked; otherwise `compute` runs:
on success its output is recorded, on failure a `StepFailure` naming the step
propagates. The workflow's compute closures are deterministic, so the retry
loop of the spec's Retry Policy collapses to a single attempt. -/
def stepDo (name : String) (compute : Unit → Except String StepOutput)
    (st : ExecTrace) : Except StepFailure StepOutput × ExecTrace :=
  match st.ledger.lookup name with
  | some out => (.ok out, { st with declared := st.declared ++ [name] })
  | none =>
    match compute () with
    | .ok out =>
      (.ok out, { st with ledger := recordStepSuccess st.ledger name out,
                          declared := st.declared ++ [name],
                          invoked := st.invoked ++ [name] })
    | .error e =>
      (.error ⟨name, e⟩, { st with declared := st.declared ++ [name],
                                   invoked := st.invoked ++ [name] })

/-- The five step names declared by `MyWorkflow.run`, in program order. -/
def stepNames : List String :=
  ["step1-validate", "step2-add-one", "step3-multiply-two",
   "step4-multiply-three", "step5-finalize"]

namespace MyWorkflow

/-- The method `MyWorkflow.run` from the source: `number` is
`event.payload.params.number`, and each step's closure is translated
verbatim (step 1 validates `typeof number !== 'number' || isNaN(number)`;
steps 2–4 do `+1`, `×2`, `×3` on the previous step's `.value`; step 5
assembles the final object). A thrown step error aborts the run. -/
def run (number : JSVal) (st : ExecTrace) :
    Except StepFailure StepOutput × ExecTrace :=
  match stepDo "step1-validate" (fun _ =>
      if !jsTypeofIsNumber number || jsIsNaN number then
        .error "输入必须是有效的数字"
      else
        .ok (.s1 true number
          ("✅ 步骤1: 验证成功，输入值为 " ++ jsToString number))) st with
  | (.error e, st) => (.error e, st)
  | (.ok step1Result, st) =>
    match stepDo "step2-add-one" (fun _ =>
        let result := jsAdd step1Result.value (.int 1)
        .ok (.mid result
          ("➕ 步骤2: " ++ jsToString step1Result.value ++ " + 1 = " ++
            jsToString result))) st with
    | (.error e, st) => (.error e, st)
    | (.ok step2Result, st) =>
      match stepDo "step3-multiply-two" (fun _ =>
          let result := jsMul step2Result.value (.int 2)
          .ok (.mid result
            ("✖️ 步骤3: " ++ jsToString step2Result.value ++ " × 2 = " ++
              jsToString result))) st with
      | (.error e, st) => (.error e, st)
      | (.ok step3Result, st) =>
        match stepDo "step4-multiply-three" (fun _ =>
            let result := jsMul step3Result.value (.int 3)
            .ok (.mid result
              ("✖️ 步骤4: " ++ jsToString step3Result.value ++ " × 3 = " ++
                jsToString result))) st with
        | (.error e, st) => (.error e, st)
        | (.ok step4Result, st) =>
          match stepDo "step5-finalize" (fun _ =>
              .ok (.final
                { success := true
                  originalNumber := number
                  finalResult := step4Result.value
                  formula := "((" ++ jsToString number ++ " + 1) × 2) × 3 = "
                    ++ jsToString step4Result.value
                  steps :=
                    [step1Result.message, step2Result.message,
                     step3Result.message, step4Result.message,
                     .str ("🎯 步骤5: 最终结果 = " ++
                       jsToString step4Result.value)] })) st with
          | (.error e, st) => (.error e, st)
          | (.ok finalStep, st) => (.ok finalStep, st)

end MyWorkflow

/-- The `finalResult` field of a run's returned value, when the run completed
with a step-5 object. -/
def runFinalValue (v : JSVal) : Option JSVal :=
  match (MyWorkflow.run v emptyExec).1 with
  | .ok (.final r) => some r.finalResult
  | _ => none

/-- The `formula` field of a run's returned value, when the run completed
with a step-5 object. -/
def runFormula (v : JSVal) : Option String :=
  match (MyWorkflow.run v emptyExec).1 with
  | .ok (.final r) => some r.formula
  | _ => none

/-- The recorded `.value` of a named step in an execution state's ledger. -/
def stepValue (st : ExecTrace) (name : String) : Option JSVal :=
  (st.ledger.lookup name).map StepOutput.value

/-- The outcome of `await request.json()` in the handler: either the read or
parse throws, with the exception's message, or it yields a body whose
`number` property is the given value (`undefined` when the field is absent). -/
inductive BodyParse where
  | fails (msg : String)
  | parsed (number : JSVal)
deriving DecidableEq, Repr

/-- An incoming HTTP request as the handler observes it: method, URL
pathname, and what `request.json()` would produce. -/
structure WRequest where
  method : String
  pathname : String
  body : BodyParse
deriving DecidableEq, Repr

/-- The handler's inline `finalResult` object (the duplicated computation in
`handleRequest`, lines 114–133 of the source): `step1 = body.number + 1`,
`step2 = step1 * 2`, `step3 = step2 * 3`, then the response object.
The wall-clock `timestamp` field is omitted from the model. -/
structure InlineResult where
  success : Bool
  originalNumber : JSVal
  finalResult : JSVal
  formula : String
  steps : List String
  workflowStatus : String
deriving DecidableEq, Repr

/-- The inline computation of `handleRequest` on the parsed `body.number`. -/
def inlineCompute (number : JSVal) : InlineResult :=
  let step1 := jsAdd number (.int 1)
  let step2 := jsMul step1 (.int 2)
  let step3 := jsMul step2 (.int 3)
  { success := true
    originalNumber := number
    finalResult := step3
    formula := "((" ++ jsToString number ++ " + 1) × 2) × 3 = " ++
      jsToString step3
    steps :=
      ["✅ 步骤1: 验证成功，输入值为 " ++ jsToString number,
       "➕ 步骤2: " ++ jsToString number ++ " + 1 = " ++ jsToString step1,
       "✖️ 步骤3: " ++ jsToString step1 ++ " × 2 = " ++ jsToString step2,
       "✖️ 步骤4: " ++ jsToString step2 ++ " × 3 = " ++ jsToString step3,
       "🎯 步骤5: 最终结果 = " ++ jsToString step3]
    workflowStatus := "Workflow已在后台异步执行" }

/-- A response the worker can produce: the CORS preflight reply, the API
success reply (`{workflowId, status, result}`), the API error reply
(status 500), a served static asset, the SPA `index.html` fallback, or 404. -/
inductive HResponse where
  | corsPreflight
  | apiOk (workflowId : String) (status : String) (result : InlineResult)
  | apiError (message : String)
  | asset (contentType : String) (body : String)
  | spaIndex (body : String)
  | notFound
deriving DecidableEq, Repr

/-- The HTTP status code each response is constructed with (the `Response`
default is 200; the API error passes 500, the final fallback 404). -/
def HResponse.httpStatus : HResponse → Nat
  | .corsPreflight => 200
  | .apiOk _ _ _ => 200
  | .apiError _ => 500
  | .asset _ _ => 200
  | .spaIndex _ => 200
  | .notFound => 404

/-- The `status` field of the JSON payload, when the response carries one. -/
def HResponse.statusField : HResponse → Option String
  | .apiOk _ s _ => some s
  | _ => none

/-- The worker's static environment: the module-level `assetManifest` (path →
asset key) and the `__STATIC_CONTENT` KV namespace (asset key → content). -/
structure StaticEnv where
  manifest : String → Option String
  content : String → Option String

/-- The content-type chosen by `handleStaticAssets` from the path's suffix
(default `text/plain`). -/
def contentTypeFor (path : String) : String :=
  if path.endsWith ".html" then "text/html"
  else if path.endsWith ".js" then "application/javascript"
  else if path.endsWith ".css" then "text/css"
  else if path.endsWith ".svg" then "image/svg+xml"
  else if path.endsWith ".png" then "image/png"
  else if path.endsWith ".jpg" || path.endsWith ".jpeg" then "image/jpeg"
  else "text/plain"

/-- The `pathname` local of `handleStaticAssets` after the root rewrite:
`/` becomes `/index.html`. -/
def effPathname (p : String) : String :=
  if p == "/" then "/index.html" else p

/-- The `assetKey` local of `handleStaticAssets`:
`assetManifest[path] || assetManifest[pathname]` with `path` the pathname
minus its leading slash. -/
def assetKeyFor (senv : StaticEnv) (p : String) : Option String :=
  match senv.manifest ((effPathname p).drop 1) with
  | some k => some k
  | none => senv.manifest (effPathname p)

/-- The first phase of `handleStaticAssets`: the asset response served when
the manifest names a key and its content exists in `__STATIC_CONTENT` —
`none` when either lookup misses and control falls through to the SPA
fallback. -/
def assetResponse (senv : StaticEnv) (p : String) : Option HResponse :=
  match assetKeyFor senv p with
  | some k =>
    match senv.content k with
    | some a => some (.asset (contentTypeFor ((effPathname p).drop 1)) a)
    | none => none
  | none => none

/-- The second phase of `handleStaticAssets`: serve `index.html` for the SPA
when it exists, else 404. -/
def indexFallback (senv : StaticEnv) : HResponse :=
  match senv.manifest "index.html" with
  | some ik =>
    match senv.content ik with
    | some ia => .spaIndex ia
    | none => .notFound
  | none => .notFound

/-- The function `handleStaticAssets` from the source: rewrite `/` to `/index.html`,
strip the leading slash, look the path up in the manifest (falling back to
the slash-prefixed pathname), serve the asset if its content exists, else
fall back to `index.html` for the SPA, else 404. -/
def handleStaticAssets (req : WRequest) (senv : StaticEnv) : HResponse :=
  match assetResponse senv req.pathname with
  | some r => r
  | none => indexFallback senv

/-- The function `handleRequest` from the source. Besides the response, the second
component records whether `env.MY_WORKFLOW.create` was called (the only
workflow-state effect). `instanceId` stands for the id of the created
instance. On a parsed POST to `/api/process` the handler fires the workflow,
then ignores it and answers 200 with `status: "completed"` and the inline
recomputation; a body-parse failure is caught and answered 500. -/
def handleRequest (req : WRequest) (instanceId : String) (senv : StaticEnv) :
    HResponse × Bool :=
  if req.method == "OPTIONS" then (.corsPreflight, false)
  else if req.pathname == "/api/process" && req.method == "POST" then
    match req.body with
    | .fails msg => (.apiError msg, false)
    | .parsed v => (.apiOk instanceId "completed" (inlineCompute v), true)
  else (handleStaticAssets req senv, false)

/-- A static environment with an empty manifest and empty KV store, used to
instantiate the handler on concrete requests that never reach the static
branch. -/
def trivialEnv : StaticEnv := ⟨fun _ => none, fun _ => none⟩

/-- An execution state whose ledger already holds a Succeeded record for the
validation step, used to instantiate the memoization theorem. -/
def c5state : ExecTrace :=
  ⟨⟨[("step1-validate", .s1 true (.int 5) "m")]⟩,
   ["step1-validate"], ["step1-validate"]⟩

/-- Any error propagated by `stepDo` names the declared step and wraps the
error its compute closure returned. -/
theorem stepDo_error_elim (name : String) (f : Unit → Except String StepOutput)
    (st : ExecTrace) (e : StepFailure) (st' : ExecTrace)
    (h : stepDo name f st = (.error e, st')) :
    e.stepName = name ∧ f () = .error e.cause := by
  unfold stepDo at h
  split at h
  · simp at h
  · split at h
    · simp at h
    · next msg heq =>
        rw [Prod.mk.injEq] at h
        obtain ⟨h1, _⟩ := h
        injection h1 with h3
        subst h3
        exact ⟨rfl, heq⟩

/-- The asset-serving phase returns either nothing or an asset response. -/
theorem assetResponse_shape (senv : StaticEnv) (p : String) :
    assetResponse senv p = none ∨
      ∃ ct b, assetResponse senv p = some (.asset ct b) := by
  unfold assetResponse
  split
  · split
    · exact .inr ⟨_, _, rfl⟩
    · exact .inl rfl
  · exact .inl rfl

/-- The SPA fallback never answers with status 500. -/
theorem indexFallback_status (senv : StaticEnv) :
    (indexFallback senv).httpStatus ≠ 500 := by
  unfold indexFallback
  split
  · split <;> simp [HResponse.httpStatus]
  · simp [HResponse.httpStatus]

/-- The static-asset handler never answers with status 500. -/
theorem handleStaticAssets_status (req : WRequest) (senv : StaticEnv) :
    (handleStaticAssets req senv).httpStatus ≠ 500 := by
  unfold handleStaticAssets
  rcases assetResponse_shape senv req.pathname with h | ⟨ct, b, h⟩ <;> rw [h]
  · exact indexFallback_status senv
  · simp [HResponse.httpStatus]

/-- C1: Scenario A. Running the workflow program on input `{number: 5}`
reaches Completed with `finalResult = 36` and
`formula = "((5 + 1) × 2) × 3 = 36"`, and for every numeric input `n` the
five steps compute `((n + 1) * 2) * 3` as the `finalResult`. -/
theorem c1_scenario_calc :
    runFinalValue (.int 5) = some (.int 36) ∧
    runFormula (.int 5) = some "((5 + 1) × 2) × 3 = 36" ∧
    ∀ n : Int, runFinalValue (.int n) = some (.int (((n + 1) * 2) * 3)) :=
  ⟨by decide, by decide, fun _ => rfl⟩

/-- C2: for every numeric input `n`, the result object the workflow run
returns agrees field-by-field (`finalResult`, `formula`, the five
step-message strings, and `originalNumber`) with the result the HTTP
handler recomputes inline — the duplicated computations never diverge. -/
theorem c2_handler_workflow_agree (n : Int) :
    ∃ r : FinalResult,
      (MyWorkflow.run (.int n) emptyExec).1 = .ok (.final r) ∧
      r.finalResult = (inlineCompute (.int n)).finalResult ∧
      r.formula = (inlineCompute (.int n)).formula ∧
      r.steps = (inlineCompute (.int n)).steps.map JSVal.str ∧
      r.originalNumber = (inlineCompute (.int n)).originalNumber :=
  ⟨_, rfl, rfl, rfl, rfl, rfl⟩

/-- C3 counterexample: for the POST `/api/process` request whose body is
`{number: "abc"}`, the workflow's validation step fails the run, yet the
handler reports HTTP 200 with `status: "completed"` — a run whose validation
step fails IS reported to the caller as completed, refuting the claim. -/
theorem c3_counterexample :
    (handleRequest ⟨"POST", "/api/process", .parsed (.str "abc")⟩
        "wf-id" trivialEnv).1.statusField = some "completed" ∧
    (handleRequest ⟨"POST", "/api/process", .parsed (.str "abc")⟩
        "wf-id" trivialEnv).1.httpStatus = 200 ∧
    (MyWorkflow.run (.str "abc") emptyExec).1 =
      .error ⟨"step1-validate", "输入必须是有效的数字"⟩ :=
  ⟨by decide, by decide, rfl⟩

/-- C3 amended: the handler reports `status: "completed"` with HTTP 200 for
every POST `/api/process` whose body parses, regardless of the workflow
run's outcome — the workflow's failure or success is never consulted. -/
theorem c3_amended_always_completed (v : JSVal) (iid : String)
    (senv : StaticEnv) :
    (handleRequest ⟨"POST", "/api/process", .parsed v⟩ iid senv).1.statusField
        = some "completed" ∧
    (handleRequest ⟨"POST", "/api/process", .parsed v⟩ iid senv).1.httpStatus
        = 200 :=
  ⟨rfl, rfl⟩

/-- C4: on the non-numeric input `{number: "abc"}` the validation step
throws, and the run terminates Failed with an error that names
`step1-validate` and carries the validation message; no step output is
recorded. -/
theorem c4_invalid_input_fails :
    MyWorkflow.run (.str "abc") emptyExec =
      (.error ⟨"step1-validate", "输入必须是有效的数字"⟩,
       ⟨⟨[]⟩, ["step1-validate"], ["step1-validate"]⟩) := rfl

/-- C5: once a step has Succeeded in the ledger, invoking the step context
for it again returns exactly the recorded output and leaves the state
untouched except for the declaration trace — in particular the compute
closure is not invoked — and recording a success for an already-Succeeded
step is a no-op that never overwrites the original output. -/
theorem c5_step_memoization (st : ExecTrace) (name : String)
    (out out' : StepOutput) (c : Unit → Except String StepOutput)
    (h : st.ledger.lookup name = some out) :
    stepDo name c st =
      (.ok out, { st with declared := st.declared ++ [name] }) ∧
    recordStepSuccess st.ledger name out' = st.ledger := by
  constructor
  · unfold stepDo
    rw [h]
  · unfold recordStepSuccess
    rw [h]

/-- Witness for C5 at a concrete recorded step. -/
theorem c5_step_memoization_witness :
    stepDo "step1-validate" (fun _ => .ok (.mid (.int 0) "x")) c5state =
      (.ok (.s1 true (.int 5) "m"),
       { c5state with declared := c5state.declared ++ ["step1-validate"] }) ∧
    recordStepSuccess c5state.ledger "step1-validate" (.mid (.int 1) "y") =
      c5state.ledger :=
  c5_step_memoization c5state "step1-validate" _ _ _ (by decide)

/-- C6: the five step names declared by `MyWorkflow.run` are pairwise
distinct; every run from a fresh state declares a duplicate-free list of
names, and a completed run declares exactly the five names. -/
theorem c6_step_names_unique :
    stepNames.Nodup ∧
    (∀ v : JSVal, (MyWorkflow.run v emptyExec).2.declared.Nodup) ∧
    (∀ (v : JSVal) (out : StepOutput) (st' : ExecTrace),
      MyWorkflow.run v emptyExec = (.ok out, st') →
        st'.declared = stepNames) := by
  refine ⟨by decide, ?_, ?_⟩
  · intro v
    cases v with
    | int n =>
        have h : (MyWorkflow.run (.int n) emptyExec).2.declared = stepNames :=
          rfl
        rw [h]; decide
    | nan =>
        have h : (MyWorkflow.run .nan emptyExec).2.declared =
          ["step1-validate"] := rfl
        rw [h]; decide
    | str s =>
        have h : (MyWorkflow.run (.str s) emptyExec).2.declared =
          ["step1-validate"] := rfl
        rw [h]; decide
    | bool b =>
        have h : (MyWorkflow.run (.bool b) emptyExec).2.declared =
          ["step1-validate"] := rfl
        rw [h]; decide
    | null =>
        have h : (MyWorkflow.run .null emptyExec).2.declared =
          ["step1-validate"] := rfl
        rw [h]; decide
    | undefined =>
        have h : (MyWorkflow.run .undefined emptyExec).2.declared =
          ["step1-validate"] := rfl
        rw [h]; decide
  · intro v out st' h
    have h2 : (MyWorkflow.run v emptyExec).2 = st' := by rw [h]
    rw [← h2]
    have h1 : (MyWorkflow.run v emptyExec).1 = .ok out := by rw [h]
    cases v with
    | int n => rfl
    | nan =>
        rw [show (MyWorkflow.run .nan emptyExec).1 =
          Except.error ⟨"step1-validate", "输入必须是有效的数字"⟩ from rfl] at h1
        cases h1
    | str s =>
        rw [show (MyWorkflow.run (.str s) emptyExec).1 =
          Except.error ⟨"step1-validate", "输入必须是有效的数字"⟩ from rfl] at h1
        cases h1
    | bool b =>
        rw [show (MyWorkflow.run (.bool b) emptyExec).1 =
          Except.error ⟨"step1-validate", "输入必须是有效的数字"⟩ from rfl] at h1
        cases h1
    | null =>
        rw [show (MyWorkflow.run .null emptyExec).1 =
          Except.error ⟨"step1-validate", "输入必须是有效的数字"⟩ from rfl] at h1
        cases h1
    | undefined =>
        rw [show (MyWorkflow.run .undefined emptyExec).1 =
          Except.error ⟨"step1-validate", "输入必须是有效的数字"⟩ from rfl] at h1
        cases h1

/-- Witness for C6 on the completed run with input 5. -/
theorem c6_step_names_unique_witness :
    ((MyWorkflow.run (.int 5) emptyExec).2).declared = stepNames :=
  c6_step_names_unique.2.2 (.int 5) _ _ rfl

/-- C7: in a run on numeric input `n`, the steps execute in program order
(the invocation trace is exactly the five names in sequence) and each step
consumes the previous step's recorded output: step 1 records `n`, step 2
records `n + 1`, step 3 records `(n + 1) * 2`, step 4 records
`((n + 1) * 2) * 3`, and the final result equals step 4's value. -/
theorem c7_sequential_dataflow (n : Int) :
    stepValue (MyWorkflow.run (.int n) emptyExec).2 "step1-validate" =
      some (.int n) ∧
    stepValue (MyWorkflow.run (.int n) emptyExec).2 "step2-add-one" =
      some (.int (n + 1)) ∧
    stepValue (MyWorkflow.run (.int n) emptyExec).2 "step3-multiply-two" =
      some (.int ((n + 1) * 2)) ∧
    stepValue (MyWorkflow.run (.int n) emptyExec).2 "step4-multiply-three" =
      some (.int (((n + 1) * 2) * 3)) ∧
    runFinalValue (.int n) =
      stepValue (MyWorkflow.run (.int n) emptyExec).2 "step4-multiply-three" ∧
    (MyWorkflow.run (.int n) emptyExec).2.invoked = stepNames :=
  ⟨rfl, rfl, rfl, rfl, rfl, rfl⟩

/-- C8: every POST to `/api/process` whose body parses is answered HTTP 200
with `status: "completed"` and the inline recomputation, whatever the
`number` field holds; and an HTTP 500 answer occurs only when reading or
parsing the request body throws. -/
theorem c8_http_200_completed :
    (∀ (v : JSVal) (iid : String) (senv : StaticEnv),
        handleRequest ⟨"POST", "/api/process", .parsed v⟩ iid senv =
          (.apiOk iid "completed" (inlineCompute v), true) ∧
        (handleRequest ⟨"POST", "/api/process", .parsed v⟩ iid
            senv).1.httpStatus = 200) ∧
    (∀ (req : WRequest) (iid : String) (senv : StaticEnv),
        (handleRequest req iid senv).1.httpStatus = 500 →
          ∃ m, req.body = .fails m) := by
  constructor
  · intro v iid senv
    exact ⟨rfl, rfl⟩
  · intro req iid senv h
    unfold handleRequest at h
    split at h
    · simp [HResponse.httpStatus] at h
    · split at h
      · split at h
        · next m heq => exact ⟨m, heq⟩
        · simp [HResponse.httpStatus] at h
      · exact absurd h (handleStaticAssets_status req senv)

/-- Witness for C8: a parsed non-numeric body is answered 200/completed, and
a concrete parse failure satisfies the 500-only-on-parse-throw direction. -/
theorem c8_http_200_completed_witness :
    handleRequest ⟨"POST", "/api/process", .parsed (.str "abc")⟩ "id"
        trivialEnv =
      (.apiOk "id" "completed" (inlineCompute (.str "abc")), true) ∧
    ∃ m, (⟨"POST", "/api/process", .fails "boom"⟩ : WRequest).body =
      .fails m :=
  ⟨(c8_http_200_completed.1 (.str "abc") "id" trivialEnv).1,
   c8_http_200_completed.2 ⟨"POST", "/api/process", .fails "boom"⟩ "id"
     trivialEnv (by decide)⟩

/-- C9: the compute closures of steps 2 through 5 have no failure path, so
any error a workflow run propagates names the validation step
`step1-validate` — once step 1 succeeds the run always returns a result. -/
theorem c9_only_validate_throws (v : JSVal) (st : ExecTrace)
    (e : StepFailure) (h : (MyWorkflow.run v st).1 = .error e) :
    e.stepName = "step1-validate" := by
  unfold MyWorkflow.run at h
  split at h
  · next e1 st1 heq =>
      simp only at h
      injection h with h'
      subst h'
      exact (stepDo_error_elim _ _ _ _ _ heq).1
  · next s1 st1 heq =>
      split at h
      · next e2 st2 heq2 =>
          have := (stepDo_error_elim _ _ _ _ _ heq2).2
          simp at this
      · next s2 st2 heq2 =>
          split at h
          · next e3 st3 heq3 =>
              have := (stepDo_error_elim _ _ _ _ _ heq3).2
              simp at this
          · next s3 st3 heq3 =>
              split at h
              · next e4 st4 heq4 =>
                  have := (stepDo_error_elim _ _ _ _ _ heq4).2
                  simp at this
              · next s4 st4 heq4 =>
                  split at h
                  · next e5 st5 heq5 =>
                      have := (stepDo_error_elim _ _ _ _ _ heq5).2
                      simp at this
                  · next s5 st5 heq5 =>
                      simp at h

/-- Witness for C9 on the failing run with input "abc". -/
theorem c9_only_validate_throws_witness :
    (⟨"step1-validate", "输入必须是有效的数字"⟩ : StepFailure).stepName =
      "step1-validate" :=
  c9_only_validate_throws (.str "abc") emptyExec _ rfl

/-- C10: `MY_WORKFLOW.create` is called exactly when the request is a POST
to `/api/process` whose body parses as JSON; OPTIONS preflight, GET
requests, and every other path are answered without touching workflow
state. -/
theorem c10_create_iff_api_post (req : WRequest) (iid : String)
    (senv : StaticEnv) :
    (handleRequest req iid senv).2 = true ↔
      (req.method = "POST" ∧ req.pathname = "/api/process" ∧
        ∃ v, req.body = .parsed v) := by
  unfold handleRequest
  split
  · next hopt =>
      simp only [Bool.false_eq_true, false_iff]
      rintro ⟨hm, -, -⟩
      rw [beq_iff_eq, hm] at hopt
      simp at hopt
  · next hopt =>
      split
      · next hapi =>
          rw [Bool.and_eq_true, beq_iff_eq, beq_iff_eq] at hapi
          obtain ⟨hp, hm⟩ := hapi
          split
          · next m heq =>
              simp only [Bool.false_eq_true, false_iff]
              rintro ⟨-, -, v, hv⟩
              rw [heq] at hv
              cases hv
          · next v heq =>
              simp only [true_iff]
              exact ⟨hm, hp, v, heq⟩
      · next hapi =>
          simp only [Bool.false_eq_true, false_iff]
          rintro ⟨hm, hp, -⟩
          rw [Bool.and_eq_true, beq_iff_eq, beq_iff_eq] at hapi
          exact hapi ⟨hp, hm⟩

/-- Witness for C10 on a concrete API request that creates an instance. -/
theorem c10_create_iff_api_post_witness :
    (handleRequest ⟨"POST", "/api/process", .parsed (.int 7)⟩ "id"
      trivialEnv).2 = true :=
  (c10_create_iff_api_post ⟨"POST", "/api/process", .parsed (.int 7)⟩ "id"
      trivialEnv).mpr ⟨rfl, rfl, ⟨.int 7, rfl⟩⟩

end WorkerWorkflow
